import Mathlib

/-!
Verification development for the `django_websockets2` package: a shallow
embedding of `base.py` (middleware chain construction and the asynchronous
dispatcher) and `asgi_handler.py` (scope normalization, the ASGI entry point,
the lifespan loop and the response streamer), with theorems checking the
specification claims against the embedded code.
-/

namespace DjangoWS

/-! ## Middleware chain construction (`base.py`, `AsyncMiddlewareHandler.load_middleware`) -/

/-- One entry of `settings.MIDDLEWARE`, abstracted by the attributes that
`load_middleware` probes.  `path` stands for the middleware import path (its
identity); `notUsed` models the constructor raising `MiddlewareNotUsed`;
`returnsNone` models the factory returning `None`. -/
structure Middleware where
  path : Nat
  async_capable : Bool
  notUsed : Bool
  returnsNone : Bool
  hasProcessView : Bool
  viewIsCoroutine : Bool
  hasProcessTemplateResponse : Bool
  hasProcessException : Bool
deriving DecidableEq

/-- The shape of the composed handler chain: `base` is `_get_response_async`,
`conv` is one `convert_exception_to_response` wrapper, `mw p h` is the
middleware instance with import path `p` wrapping `h` as its next handler. -/
inductive Handler where
  | base : Handler
  | conv : Handler → Handler
  | mw : Nat → Handler → Handler
deriving DecidableEq

/-- Errors `load_middleware` can raise: `ImproperlyConfigured` or the
`RuntimeError` used for the missing `async_capable` flag. -/
inductive ConfigError where
  | improperlyConfigured : ConfigError
  | runtimeError : ConfigError
deriving DecidableEq

/-- The handler state built by `load_middleware`: the three hook lists (each
hook identified by the path of the middleware that provided it) and the
accumulated handler chain. -/
structure MWState where
  view_middleware : List Nat
  template_response_middleware : List Nat
  exception_middleware : List Nat
  handler : Handler
deriving DecidableEq

/-- One iteration of the `for middleware_path in reversed(settings.MIDDLEWARE)`
loop body of `load_middleware` (base.py lines 46-92): check `async_capable`
(RuntimeError if missing), skip on `MiddlewareNotUsed`, reject a factory
returning `None`, reject a non-coroutine `process_view`, prepend the view hook,
append the template-response and exception hooks, and wrap the instance in
`convert_exception_to_response` as the new accumulated handler. -/
def load_middleware_step (st : MWState) (m : Middleware) : Except ConfigError MWState :=
  if !m.async_capable then
    .error .runtimeError
  else if m.notUsed then
    .ok st
  else if m.returnsNone then
    .error .improperlyConfigured
  else if m.hasProcessView && !m.viewIsCoroutine then
    .error .improperlyConfigured
  else
    let st1 := if m.hasProcessView then
      { st with view_middleware := m.path :: st.view_middleware } else st
    let st2 := if m.hasProcessTemplateResponse then
      { st1 with template_response_middleware :=
          st1.template_response_middleware ++ [m.path] } else st1
    let st3 := if m.hasProcessException then
      { st2 with exception_middleware := st2.exception_middleware ++ [m.path] } else st2
    .ok { st3 with handler := .conv (.mw m.path st3.handler) }

/-- `AsyncMiddlewareHandler.load_middleware` (base.py lines 31-95): fail with
`ImproperlyConfigured` unless `is_async`; start from
`convert_exception_to_response(_get_response_async)` and run the loop body over
the reversed middleware list.  The resulting `MWState` is only produced when no
step fails, matching the source publishing `_middleware_chain` only at the end. -/
def load_middleware (mws : List Middleware) (is_async : Bool) : Except ConfigError MWState :=
  if !is_async then
    .error .improperlyConfigured
  else
    mws.reverse.foldlM load_middleware_step
      { view_middleware := []
        template_response_middleware := []
        exception_middleware := []
        handler := .conv .base }

/-- A middleware entry that `load_middleware` accepts and keeps. -/
def usableMiddleware (m : Middleware) : Prop :=
  m.async_capable = true ∧ m.notUsed = false ∧ m.returnsNone = false ∧
    (m.hasProcessView = true → m.viewIsCoroutine = true)

instance (m : Middleware) : Decidable (usableMiddleware m) := by
  unfold usableMiddleware
  infer_instance

/-- The loop body specialized to a usable middleware (no error case); used to
relate the monadic fold to a pure fold. -/
def load_middleware_step_ok (st : MWState) (m : Middleware) : MWState :=
  let st1 := if m.hasProcessView then
    { st with view_middleware := m.path :: st.view_middleware } else st
  let st2 := if m.hasProcessTemplateResponse then
    { st1 with template_response_middleware :=
        st1.template_response_middleware ++ [m.path] } else st1
  let st3 := if m.hasProcessException then
    { st2 with exception_middleware := st2.exception_middleware ++ [m.path] } else st2
  { st3 with handler := .conv (.mw m.path st3.handler) }

/-- The chain shape the specification describes: the first-configured
middleware is the outermost layer, the next handler of every layer is wrapped in an
exception-to-response converter, and the innermost handler is the converted
core dispatcher. -/
def specChain : List Middleware → Handler
  | [] => .conv .base
  | m :: rest => .conv (.mw m.path (specChain rest))

/-! ## The asynchronous dispatcher (`base.py`, `AsyncMiddlewareHandler._get_response_async`) -/

deriving instance DecidableEq for Except

/-- A response value as seen by the dispatcher.  `n` is the identity of the
response object; `hasRender` models `hasattr(response, +render+) and
callable(response.render)`; `renderResult` models the outcome of invoking the
render step (the identity of the rendered response, or the exception it
raises) and is only consulted on the render path. -/
structure Resp where
  n : Nat
  hasRender : Bool
  renderResult : Except Nat Nat
deriving DecidableEq

/-- Outcome of `_get_response_async`: a response, a propagated exception
(identified by a numeric code), or an `ImproperlyConfigured` raised by
`check_response`. -/
inductive DispatchResult where
  | ok : Resp → DispatchResult
  | exn : Nat → DispatchResult
  | configError : DispatchResult
deriving DecidableEq

/-- The per-request inputs of `_get_response_async`: the result each view hook
produces for this request, the exception hooks (`_exception_middleware`), the
template-response hooks (`None` result models a hook the `check_response` call
rejects), and the outcome of the view callback (`.error e` = the callback raises
exception `e`; `.ok none` = the callback returns `None`, rejected by
`check_response`). -/
structure DispatchEnv where
  view_middleware : List (Option Resp)
  exception_middleware : List (Nat → Option Resp)
  template_response_middleware : List (Resp → Option Resp)
  callbackResult : Except Nat (Option Resp)

/-- The view-middleware loop (base.py lines 114-118): the first hook returning
a truthy response short-circuits. -/
def first_view_response : List (Option Resp) → Option Resp
  | [] => none
  | some r :: _ => some r
  | none :: rest => first_view_response rest

/-- Modelled from the spec: `BaseHandler.process_exception_by_middleware` is
inherited from the framework base class and is not part of the sources of this
repository.  The spec: the exception is "passed, in exception-hook registration
order, to each exception hook ... until one returns a response; that response
becomes the result", and if none returns a response the exception propagates
(the source re-raises when this returns `None`). -/
def process_exception_by_middleware (hooks : List (Nat → Option Resp)) (e : Nat) :
    Option Resp :=
  match hooks with
  | [] => none
  | h :: rest =>
    match h e with
    | some r => some r
    | none => process_exception_by_middleware rest e

/-- The template-response middleware loop (base.py lines 147-157): each hook
replaces the response; a hook whose result `check_response` rejects aborts
with `none`. -/
def apply_template_middleware (hooks : List (Resp → Option Resp)) (r : Resp) :
    Option Resp :=
  match hooks with
  | [] => some r
  | h :: rest =>
    match h r with
    | none => none
    | some r2 => apply_template_middleware rest r2

/-- `AsyncMiddlewareHandler._get_response_async` (base.py lines 103-173):
run the view hooks; if none short-circuits, take the result of the callback,
routing a raised exception through the exception hooks (re-raising it when no
hook answers); `check_response` rejects a `None` result; if the resulting
response declares deferred rendering, run the template-response hooks and the
render step, routing a render exception through the same exception hooks. -/
def get_response_async (env : DispatchEnv) : DispatchResult :=
  let step1 : DispatchResult :=
    match first_view_response env.view_middleware with
    | some r => .ok r
    | none =>
      match env.callbackResult with
      | .ok (some r) => .ok r
      | .ok none => .configError
      | .error e =>
        match process_exception_by_middleware env.exception_middleware e with
        | some r => .ok r
        | none => .exn e
  match step1 with
  | .exn e => .exn e
  | .configError => .configError
  | .ok r =>
    if r.hasRender then
      match apply_template_middleware env.template_response_middleware r with
      | none => .configError
      | some r2 =>
        match r2.renderResult with
        | .ok m => .ok { n := m, hasRender := false, renderResult := .ok m }
        | .error e =>
          match process_exception_by_middleware env.exception_middleware e with
          | some r3 => .ok r3
          | none => .exn e
    else .ok r

/-! ## Execution mechanisms (`base.py`, `sync_to_async_view` / `sync_to_async`) -/

/-- The observable effect of running a blocking function through one of the
two helpers: its value, and whether the call was offloaded to the worker-pool
executor (`run_in_executor`) or run inline on the event loop. -/
structure ExecCall (α : Type) where
  value : α
  offloaded : Bool
deriving DecidableEq

/-- `sync_to_async_view` (base.py lines 18-21): offloads the call to the event
executor pool of the event loop and awaits the result. -/
def sync_to_async_view {α : Type} (f : Unit → α) : ExecCall α :=
  { value := f (), offloaded := true }

/-- `sync_to_async` (base.py lines 24-25): calls the function directly, inline
on the event loop, without any offload. -/
def sync_to_async {α : Type} (f : Unit → α) : ExecCall α :=
  { value := f (), offloaded := false }

/-- `AsyncMiddlewareHandler.sync_executor` (base.py line 29). -/
def sync_executor {α : Type} : (Unit → α) → ExecCall α :=
  sync_to_async

/-- The mechanism `_get_response_async` uses for a non-coroutine view callback
(base.py line 129). -/
def dispatch_callback_runner {α : Type} : (Unit → α) → ExecCall α :=
  sync_to_async_view

/-- The mechanism `_get_response_async` uses to run the exception hooks
(base.py line 134). -/
def dispatch_exception_runner {α : Type} : (Unit → α) → ExecCall α :=
  sync_executor

/-- The mechanism `_get_response_async` uses for a non-coroutine render step
(base.py line 162). -/
def dispatch_render_runner {α : Type} : (Unit → α) → ExecCall α :=
  sync_executor

/-! ## Scope normalization (`asgi_handler.py`, `ASGIRequest.__init__`) -/

/-- An ASGI scope, abstracted by the two fields the request adapter touches. -/
structure Scope where
  type : String
  method : Option String
deriving DecidableEq

/-- `ASGIRequest.__init__` method normalization (asgi_handler.py lines 31-34):
for a websocket scope, assign method GET; then
default the method field to GET when absent. -/
def normalize_method (s : Scope) : Scope :=
  let s1 := if s.type = "websocket" then { s with method := some "GET" } else s
  { s1 with method := some (s1.method.getD "GET") }

/-! ## Lifespan loop (`asgi_handler.py`, `BaseASGIHandler.handle_lifespan`) -/

/-- One observable event of the lifespan loop. -/
inductive LifespanEvent where
  | recv : String → LifespanEvent
  | send : String → LifespanEvent
deriving DecidableEq

/-- The body of the lifespan `while True` loop (asgi_handler.py lines 79-85):
the messages sent in reaction to one received message type. -/
def handle_lifespan_step (t : String) : List String :=
  if t = "lifespan.startup" then ["lifespan.startup.complete"]
  else if t = "lifespan.shutdown" then ["lifespan.shutdown.complete"]
  else []

/-- The event trace of `handle_lifespan` over a finite prefix of the incoming
message stream: the loop receives each message in turn and emits the replies of the step
 before receiving the next one; the loop itself never exits. -/
def handle_lifespan_trace : List String → List LifespanEvent
  | [] => []
  | t :: rest =>
    .recv t :: ((handle_lifespan_step t).map .send ++ handle_lifespan_trace rest)

/-- Whether a trace event is a receive. -/
def LifespanEvent.isRecv : LifespanEvent → Bool
  | .recv _ => true
  | .send _ => false

/-! ## Response streamer (`asgi_handler.py`, `BaseASGIHandler.send_response`) -/

/-- One outgoing ASGI frame: `http.response.start` or `http.response.body`.
The final closing message, with only a type field, of the streaming
branch carries the ASGI defaults, an empty body and `more_body = False`.
Bytes are modelled as lists of naturals. -/
inductive Frame where
  | start : Nat → List (List Nat × List Nat) → Frame
  | body : List Nat → Bool → Frame
deriving DecidableEq

/-- A finished response as consumed by `send_response`.  `is_upgrade` models
`isinstance(response, HttpResponseUpgrade)`; `headers` is the already-encoded
header list (the byte-encoding of names/values and the cookie serialization of
lines 91-101 are abstracted into it, as no claim here concerns them);
`parts` is the part sequence of a streaming body and `content` the buffer of a
non-streaming one. -/
structure StreamResponse where
  is_upgrade : Bool
  status_code : Nat
  headers : List (List Nat × List Nat)
  streaming : Bool
  parts : List (List Nat)
  content : List Nat
deriving DecidableEq

/-- Modelled from the spec: `chunk_bytes` is inherited from the framework base
class and is not part of the sources of this repository.  The spec: "split it into
fixed-size chunks (a configured maximum frame size)" yielding ceil(S/C) chunks
for S bytes, each of the configured size C except possibly the last; each
chunk is paired with a flag marking the final chunk.  The configured chunk
size is a positive constant in the source; the C = 0 branch is unreachable. -/
def chunk_bytes (C : Nat) (data : List Nat) : List (List Nat × Bool) :=
  if _h : data.length ≤ C then
    if data.isEmpty then [] else [(data, true)]
  else if _h0 : C = 0 then []
  else (data.take C, false) :: chunk_bytes C (data.drop C)
termination_by data.length
decreasing_by
  simp only [List.length_drop]
  omega

/-- `BaseASGIHandler.send_response` (asgi_handler.py lines 87-132) as the list
of frames it sends: nothing for the upgrade sentinel; otherwise the start
frame, then for a streaming body one frame per chunk of each part with
`more_body = True` followed by the closing empty frame, and for a buffered
body one frame per chunk with `more_body = not last`. -/
def send_response (C : Nat) (r : StreamResponse) : List Frame :=
  if r.is_upgrade then []
  else
    Frame.start r.status_code r.headers ::
      (if r.streaming then
        (r.parts.flatMap fun part =>
          (chunk_bytes C part).map fun cb => Frame.body cb.1 true) ++
          [Frame.body [] false]
      else
        (chunk_bytes C r.content).map fun cb => Frame.body cb.1 !cb.2)

/-! ## ASGI entry point (`asgi_handler.py`, `BaseASGIHandler.__call__`) -/

/-- The externally observable actions of the entry point that the claims
distinguish. -/
inductive CallAction where
  | read_body : CallAction
  | send_frame : CallAction
deriving DecidableEq

/-- How one invocation of the entry point ends. -/
inductive CallOutcome where
  | lifespan_handled : CallOutcome
  | value_error : CallOutcome
  | request_served : CallOutcome
deriving DecidableEq

/-- `BaseASGIHandler.__call__` (asgi_handler.py lines 41-57), up to the body
read: delegate a lifespan scope to `handle_lifespan`; raise `ValueError` for
any type outside http/websocket; otherwise read the body and proceed (the
subsequent dispatch and response actions are abstracted as `rest`). -/
def handler_call (scope_type : String) (rest : List CallAction) :
    List CallAction × CallOutcome :=
  if scope_type = "lifespan" then ([], .lifespan_handled)
  else if !(["http", "websocket"].contains scope_type) then ([], .value_error)
  else (CallAction.read_body :: rest, .request_served)

/-! ## Theorems -/

/-- C9: a response that is the upgrade sentinel produces zero emitted frames
from the response streamer, for any chunk size: no start frame and no body
frames. -/
theorem send_response_upgrade_sentinel (C : Nat) (r : StreamResponse)
    (h : r.is_upgrade = true) : send_response C r = [] := by
  simp [send_response, h]

theorem send_response_upgrade_sentinel_witness :
    (⟨true, 101, [], false, [], [0, 1]⟩ : StreamResponse).is_upgrade = true ∧
    send_response 4 (⟨true, 101, [], false, [], [0, 1]⟩ : StreamResponse) = [] :=
  ⟨rfl, send_response_upgrade_sentinel 4 _ rfl⟩

/-- C10: for every scope whose kind is not http, websocket or lifespan, the
entry point raises `ValueError` having performed no action: it does not read a
request body and sends no outgoing message, whatever the continuation would
have done. -/
theorem handler_call_unknown_type (t : String) (rest : List CallAction)
    (h1 : t ≠ "http") (h2 : t ≠ "websocket") (h3 : t ≠ "lifespan") :
    handler_call t rest = ([], .value_error) := by
  simp [handler_call, h1, h2, h3]

theorem handler_call_unknown_type_witness :
    handler_call "ftp" [CallAction.read_body, CallAction.send_frame] =
      ([], .value_error) :=
  handler_call_unknown_type "ftp" _ (by decide) (by decide) (by decide)

/-- C6, counterexample: a websocket scope with an explicitly present method
does not keep it — the normalization overwrites the method with GET, so the
claim that an explicit method is never overwritten is false. -/
theorem normalize_method_overwrites_websocket :
    (normalize_method { type := "websocket", method := some "POST" }).method
        = some "GET" ∧
    normalize_method { type := "websocket", method := some "POST" } ≠
      { type := "websocket", method := some "POST" } := by
  constructor
  · decide
  · decide

/-- C6, amended: a websocket scope always gets method GET (overwriting any
explicitly present method); a non-websocket scope lacking a method defaults to
GET; a non-websocket scope with an explicitly present method keeps it; the
scope kind is unchanged. -/
theorem normalize_method_spec (s : Scope) :
    (normalize_method s).type = s.type ∧
    (s.type = "websocket" → (normalize_method s).method = some "GET") ∧
    (s.type ≠ "websocket" → s.method = none →
      (normalize_method s).method = some "GET") ∧
    (s.type ≠ "websocket" → ∀ m, s.method = some m →
      (normalize_method s).method = some m) := by
  by_cases h : s.type = "websocket"
  · simp [normalize_method, h]
  · cases hm : s.method <;> simp [normalize_method, h, hm]

theorem normalize_method_spec_witness :
    (normalize_method { type := "websocket", method := some "POST" }).method
        = some "GET" ∧
    (normalize_method { type := "http", method := none }).method = some "GET" ∧
    (normalize_method { type := "http", method := some "POST" }).method
        = some "POST" :=
  ⟨(normalize_method_spec _).2.1 rfl,
   (normalize_method_spec _).2.2.1 (by decide) rfl,
   (normalize_method_spec _).2.2.2 (by decide) "POST" rfl⟩

/-- C5, counterexample: the mechanism the dispatcher uses to run exception
hooks (`sync_executor`, which is `sync_to_async` and runs the function inline)
is not the same function as the one it uses for non-coroutine view callbacks
(`sync_to_async_view`, which offloads to the worker-pool executor): they
already differ on a constant function. -/
theorem dispatch_runner_not_shared :
    dispatch_exception_runner (fun _ => (0 : Nat)) ≠
      dispatch_callback_runner (fun _ => (0 : Nat)) := by
  decide

/-- C5, amended: exception hooks and non-coroutine render steps do share one
mechanism — `sync_executor`, which is `sync_to_async` and runs the function
inline on the event loop without offloading — but that mechanism is distinct
from the executor-offloading `sync_to_async_view` used for non-coroutine view
callbacks. -/
theorem dispatch_runner_mechanisms {α : Type} (f : Unit → α) :
    dispatch_exception_runner f = dispatch_render_runner f ∧
    dispatch_exception_runner f = sync_to_async f ∧
    (dispatch_exception_runner f).offloaded = false ∧
    dispatch_callback_runner f = sync_to_async_view f ∧
    (dispatch_callback_runner f).offloaded = true :=
  ⟨rfl, rfl, rfl, rfl, rfl⟩

/-- Concatenating message streams concatenates lifespan traces: the loop
processes every message and never exits on its own. -/
theorem handle_lifespan_trace_append (a b : List String) :
    handle_lifespan_trace (a ++ b) =
      handle_lifespan_trace a ++ handle_lifespan_trace b := by
  induction a with
  | nil => simp [handle_lifespan_trace]
  | cons t rest ih => simp [handle_lifespan_trace, ih]

/-- The replies emitted inside one loop iteration contain no receive event. -/
theorem filter_isRecv_send_map (l : List String) :
    (l.map LifespanEvent.send).filter LifespanEvent.isRecv = [] := by
  induction l with
  | nil => rfl
  | cons t rest ih => simp [LifespanEvent.isRecv, ih]

/-- C8: in the lifespan loop, a received startup message is answered with the
startup-complete message before the next message is consumed, a shutdown
message with the shutdown-complete message, any other message kind produces no
send, and the loop consumes every incoming message without terminating on its
own. -/
theorem handle_lifespan_protocol (pre rest : List String) (t : String)
    (h1 : t ≠ "lifespan.startup") (h2 : t ≠ "lifespan.shutdown") :
    handle_lifespan_trace (pre ++ "lifespan.startup" :: rest) =
      handle_lifespan_trace pre ++ LifespanEvent.recv "lifespan.startup" ::
        LifespanEvent.send "lifespan.startup.complete" ::
          handle_lifespan_trace rest ∧
    handle_lifespan_trace (pre ++ "lifespan.shutdown" :: rest) =
      handle_lifespan_trace pre ++ LifespanEvent.recv "lifespan.shutdown" ::
        LifespanEvent.send "lifespan.shutdown.complete" ::
          handle_lifespan_trace rest ∧
    handle_lifespan_trace (pre ++ t :: rest) =
      handle_lifespan_trace pre ++ LifespanEvent.recv t ::
        handle_lifespan_trace rest ∧
    (∀ msgs : List String,
      (handle_lifespan_trace msgs).filter LifespanEvent.isRecv =
        msgs.map LifespanEvent.recv) := by
  refine ⟨?_, ?_, ?_, ?_⟩
  · simp [handle_lifespan_trace_append, handle_lifespan_trace, handle_lifespan_step]
  · simp [handle_lifespan_trace_append, handle_lifespan_trace, handle_lifespan_step]
  · simp [handle_lifespan_trace_append, handle_lifespan_trace,
      handle_lifespan_step, h1, h2]
  · intro msgs
    induction msgs with
    | nil => rfl
    | cons m ms ih =>
      simp [handle_lifespan_trace, List.filter_append, filter_isRecv_send_map,
        LifespanEvent.isRecv, ih]

/-- On a usable middleware the loop body cannot fail and acts as its pure
specialization. -/
theorem load_middleware_step_usable (st : MWState) (m : Middleware)
    (h : usableMiddleware m) :
    load_middleware_step st m = .ok (load_middleware_step_ok st m) := by
  obtain ⟨h1, h2, h3, h4⟩ := h
  cases hv : m.hasProcessView with
  | true =>
    simp [load_middleware_step, load_middleware_step_ok, h1, h2, h3, hv, h4 hv]
  | false =>
    simp [load_middleware_step, load_middleware_step_ok, h1, h2, h3, hv]

/-- Over usable middleware the monadic fold of the loop body succeeds and
equals the pure fold. -/
theorem load_middleware_foldlM_usable (l : List Middleware) (st : MWState)
    (h : ∀ m ∈ l, usableMiddleware m) :
    l.foldlM load_middleware_step st = .ok (l.foldl load_middleware_step_ok st) := by
  induction l generalizing st with
  | nil => rfl
  | cons m rest ih =>
    rw [List.foldlM_cons, load_middleware_step_usable st m (h m (by simp))]
    simp only [List.foldl_cons]
    simpa using ih (load_middleware_step_ok st m) fun x hx => h x (by simp [hx])

/-- The pure fold over the reversed middleware list produces the hook lists
and the chain shape the specification describes. -/
theorem load_middleware_fold_shape (mws : List Middleware) :
    mws.reverse.foldl load_middleware_step_ok
      { view_middleware := [], template_response_middleware := [],
        exception_middleware := [], handler := .conv .base } =
      { view_middleware := (mws.filter fun m => m.hasProcessView).map fun m => m.path
        template_response_middleware :=
          (mws.reverse.filter fun m => m.hasProcessTemplateResponse).map fun m => m.path
        exception_middleware :=
          (mws.reverse.filter fun m => m.hasProcessException).map fun m => m.path
        handler := specChain mws } := by
  induction mws with
  | nil => rfl
  | cons m rest ih =>
    simp only [List.reverse_cons, List.foldl_append, List.foldl_cons,
      List.foldl_nil, ih]
    cases hv : m.hasProcessView <;>
      cases ht : m.hasProcessTemplateResponse <;>
        cases he : m.hasProcessException <;>
          simp [load_middleware_step_ok, hv, ht, he, specChain,
            List.filter_append, List.filter_cons]

/-- C1: for a middleware list the builder accepts, the published chain wraps
middleware in reverse instantiation order so that the first-configured
middleware is the outermost middleware layer, each wrapping its converted next
handler (`specChain`); view hooks are collected in configured order
(first-configured first), while template-response and exception hooks are
collected in wrap order (reverse configured order). -/
theorem load_middleware_chain_order (mws : List Middleware)
    (h : ∀ m ∈ mws, usableMiddleware m) :
    load_middleware mws true = .ok
      { view_middleware := (mws.filter fun m => m.hasProcessView).map fun m => m.path
        template_response_middleware :=
          (mws.reverse.filter fun m => m.hasProcessTemplateResponse).map fun m => m.path
        exception_middleware :=
          (mws.reverse.filter fun m => m.hasProcessException).map fun m => m.path
        handler := specChain mws } := by
  have hrev : ∀ m ∈ mws.reverse, usableMiddleware m :=
    fun m hm => h m (List.mem_reverse.mp hm)
  show mws.reverse.foldlM load_middleware_step _ = _
  rw [load_middleware_foldlM_usable _ _ hrev, load_middleware_fold_shape]

theorem load_middleware_chain_order_witness :
    load_middleware [⟨1, true, false, false, true, true, false, true⟩,
        ⟨2, true, false, false, false, false, true, true⟩] true =
      .ok { view_middleware := [1]
            template_response_middleware := [2]
            exception_middleware := [2, 1]
            handler := .conv (.mw 1 (.conv (.mw 2 (.conv .base)))) } :=
  load_middleware_chain_order _ (by decide)

/-- A middleware without the asynchronous capability flag makes the loop body
fail with the RuntimeError. -/
theorem load_middleware_step_not_async (st : MWState) (m : Middleware)
    (h : m.async_capable = false) :
    load_middleware_step st m = .error .runtimeError := by
  simp [load_middleware_step, h]

/-- The monadic fold fails whenever some element lacks the asynchronous
capability flag. -/
theorem load_middleware_foldlM_not_async (l : List Middleware) (st : MWState)
    (h : ∃ m ∈ l, m.async_capable = false) :
    ∃ e, l.foldlM load_middleware_step st = .error e := by
  induction l generalizing st with
  | nil =>
    obtain ⟨m, hm, _⟩ := h
    exact absurd hm (List.not_mem_nil m)
  | cons m rest ih =>
    rw [List.foldlM_cons]
    by_cases hm : m.async_capable = false
    · refine ⟨.runtimeError, ?_⟩
      rw [load_middleware_step_not_async st m hm]
      rfl
    · cases hstep : load_middleware_step st m with
      | error e => exact ⟨e, rfl⟩
      | ok st2 =>
        obtain ⟨m2, hm2, hcap⟩ := h
        rcases List.mem_cons.mp hm2 with rfl | hm2
        · exact absurd hcap hm
        · obtain ⟨e, he⟩ := ih st2 ⟨m2, hm2, hcap⟩
          exact ⟨e, he⟩

/-- C7: a middleware list containing at least one middleware without the
asynchronous capability flag makes chain construction fail before any chain is
produced (no `MWState` is ever published); and invoking chain construction in
synchronous-only mode fails immediately with the configuration error. -/
theorem load_middleware_requires_async (mws : List Middleware)
    (h : ∃ m ∈ mws, m.async_capable = false) :
    (∃ e, load_middleware mws true = .error e) ∧
    load_middleware mws false = .error .improperlyConfigured := by
  constructor
  · obtain ⟨m, hm, hc⟩ := h
    exact load_middleware_foldlM_not_async mws.reverse _
      ⟨m, List.mem_reverse.mpr hm, hc⟩
  · rfl

theorem load_middleware_requires_async_witness :
    (∃ e, load_middleware
      [⟨1, false, false, false, false, false, false, false⟩] true = .error e) ∧
    load_middleware [⟨1, false, false, false, false, false, false, false⟩] false =
      .error .improperlyConfigured :=
  load_middleware_requires_async _ (by decide)

/-- C4: when no view hook short-circuits and the view callback raises, the
exception is passed to the exception hooks: if some hook returns a response
(not itself deferred-rendered) that response is the dispatcher result, and if
no hook returns one the original exception propagates; a render-step exception
is recovered identically. -/
theorem get_response_exception_recovery (env : DispatchEnv) (e : Nat)
    (hv : first_view_response env.view_middleware = none) :
    (env.callbackResult = .error e →
      (∀ r, process_exception_by_middleware env.exception_middleware e = some r →
        r.hasRender = false → get_response_async env = .ok r) ∧
      (process_exception_by_middleware env.exception_middleware e = none →
        get_response_async env = .exn e)) ∧
    (∀ r0, env.callbackResult = .ok (some r0) → r0.hasRender = true →
      env.template_response_middleware = [] → r0.renderResult = .error e →
      (∀ r, process_exception_by_middleware env.exception_middleware e = some r →
        get_response_async env = .ok r) ∧
      (process_exception_by_middleware env.exception_middleware e = none →
        get_response_async env = .exn e)) := by
  constructor
  · intro hcb
    constructor
    · intro r hr hrender
      simp [get_response_async, hv, hcb, hr, hrender]
    · intro hr
      simp [get_response_async, hv, hcb, hr]
  · intro r0 hcb hrender htmpl hres
    constructor
    · intro r hr
      simp [get_response_async, hv, hcb, hrender, htmpl, hres, hr,
        apply_template_middleware]
    · intro hr
      simp [get_response_async, hv, hcb, hrender, htmpl, hres, hr,
        apply_template_middleware]

theorem get_response_exception_recovery_witness :
    get_response_async ⟨[],
        [fun e => if e = 7 then some ⟨1, false, Except.ok 1⟩ else none], [],
        .error 7⟩ =
      .ok ⟨1, false, Except.ok 1⟩ ∧
    get_response_async ⟨[], [], [], .error 7⟩ = .exn 7 :=
  ⟨((get_response_exception_recovery ⟨[],
        [fun e => if e = 7 then some ⟨1, false, Except.ok 1⟩ else none], [],
        .error 7⟩ 7 rfl).1 rfl).1 _ rfl rfl,
   ((get_response_exception_recovery ⟨[], [], [], .error 7⟩ 7 rfl).1 rfl).2 rfl⟩

/-- Chunking the empty buffer produces no chunks. -/
theorem chunk_bytes_nil (C : Nat) : chunk_bytes C [] = [] := by
  rw [chunk_bytes]
  simp

/-- The number of chunks of an S-byte buffer at chunk size C is ceil(S/C),
written (S + C - 1) / C. -/
theorem chunk_bytes_length (C : Nat) (hC : 0 < C) (data : List Nat) :
    (chunk_bytes C data).length = (data.length + C - 1) / C := by
  suffices H : ∀ n (d : List Nat), d.length ≤ n →
      (chunk_bytes C d).length = (d.length + C - 1) / C from
    H data.length data le_rfl
  intro n
  induction n with
  | zero =>
    intro d hd
    have hd0 : d = [] := List.length_eq_zero.mp (Nat.le_zero.mp hd)
    subst hd0
    rw [chunk_bytes]
    simp [Nat.div_eq_of_lt (show C - 1 < C by omega)]
  | succ n ih =>
    intro d hd
    rw [chunk_bytes]
    split
    next hle =>
      split
      next hem =>
        have hd0 : d = [] := by simpa [List.isEmpty_iff] using hem
        subst hd0
        simp [Nat.div_eq_of_lt (show C - 1 < C by omega)]
      next hem =>
        have hne : d ≠ [] := by simpa [List.isEmpty_iff] using hem
        have hpos : 0 < d.length := List.length_pos.mpr hne
        have h1 : d.length + C - 1 = (d.length - 1) + C := by omega
        rw [List.length_singleton, h1, Nat.add_div_right _ hC,
          Nat.div_eq_of_lt (show d.length - 1 < C by omega)]
    next hle =>
      split
      next h0 => omega
      next h0 =>
        have hlt : C < d.length := Nat.lt_of_not_le hle
        have hdrop : (d.drop C).length = d.length - C := by simp
        have hrec := ih (d.drop C) (by omega)
        rw [List.length_cons, hrec, hdrop]
        have h1 : d.length + C - 1 = ((d.length - C) + C - 1) + C := by omega
        rw [h1, Nat.add_div_right _ hC]

/-- Shape of the chunk list of a nonempty buffer: some chunks of exactly the
configured size, all flagged non-final, followed by one final nonempty chunk
of at most the configured size. -/
theorem chunk_bytes_structure (C : Nat) (hC : 0 < C) (data : List Nat)
    (hd : data ≠ []) :
    ∃ (chunks : List (List Nat)) (lastC : List Nat),
      chunk_bytes C data = chunks.map (fun c => (c, false)) ++ [(lastC, true)] ∧
      (∀ c ∈ chunks, c.length = C) ∧ 0 < lastC.length ∧ lastC.length ≤ C := by
  suffices H : ∀ n (d : List Nat), d.length ≤ n → d ≠ [] →
      ∃ (chunks : List (List Nat)) (lastC : List Nat),
        chunk_bytes C d = chunks.map (fun c => (c, false)) ++ [(lastC, true)] ∧
        (∀ c ∈ chunks, c.length = C) ∧ 0 < lastC.length ∧ lastC.length ≤ C from
    H data.length data le_rfl hd
  intro n
  induction n with
  | zero =>
    intro d hdl hdn
    exact absurd (List.length_eq_zero.mp (Nat.le_zero.mp hdl)) hdn
  | succ n ih =>
    intro d hdl hdn
    rw [chunk_bytes]
    split
    next hle =>
      split
      next hem =>
        exact absurd (by simpa [List.isEmpty_iff] using hem) hdn
      next hem =>
        exact ⟨[], d, by simp, by simp, List.length_pos.mpr hdn, hle⟩
    next hle =>
      split
      next h0 => omega
      next h0 =>
        have hlt : C < d.length := Nat.lt_of_not_le hle
        have hdrop : (d.drop C).length = d.length - C := by simp
        obtain ⟨chunks, lastC, heq, hc, hl1, hl2⟩ :=
          ih (d.drop C) (by omega)
            (List.ne_nil_of_length_pos (by omega))
        refine ⟨d.take C :: chunks, lastC, ?_, ?_, hl1, hl2⟩
        · simp [heq]
        · intro c hcm
          rcases List.mem_cons.mp hcm with rfl | hcm
          · simp [List.length_take]
            omega
          · exact hc c hcm

/-- C2: for a non-upgrade streaming response whose parts split into N total
chunks, the streamer emits, after the single start frame, exactly N body
frames each with more-body true (whether or not a chunk ends a part),
followed by exactly one additional empty body frame with more-body false. -/
theorem send_response_streaming (C : Nat) (r : StreamResponse)
    (hu : r.is_upgrade = false) (hs : r.streaming = true) :
    ∃ bodyFrames : List Frame,
      send_response C r =
        Frame.start r.status_code r.headers ::
          (bodyFrames ++ [Frame.body [] false]) ∧
      bodyFrames.length =
        (r.parts.map fun p => (chunk_bytes C p).length).sum ∧
      ∀ f ∈ bodyFrames, ∃ c : List Nat, f = Frame.body c true := by
  refine ⟨r.parts.flatMap fun part =>
    (chunk_bytes C part).map fun cb => Frame.body cb.1 true, ?_, ?_, ?_⟩
  · simp [send_response, hu, hs]
  · simp only [List.length_flatMap, Function.comp_def, List.length_map]
  · intro f hf
    simp only [List.mem_flatMap, List.mem_map] at hf
    obtain ⟨part, _, cb, _, rfl⟩ := hf
    exact ⟨cb.1, rfl⟩

theorem send_response_streaming_witness :
    ∃ bodyFrames : List Frame,
      send_response 2 (⟨false, 200, [], true, [[0, 1, 2], [3]], []⟩ : StreamResponse) =
        Frame.start 200 [] :: (bodyFrames ++ [Frame.body [] false]) ∧
      bodyFrames.length =
        (([[0, 1, 2], [3]] : List (List Nat)).map fun p =>
          (chunk_bytes 2 p).length).sum ∧
      ∀ f ∈ bodyFrames, ∃ c : List Nat, f = Frame.body c true :=
  send_response_streaming 2 _ rfl rfl

/-- C3: for a non-upgrade buffered response with body of S bytes and chunk
size C > 0, the streamer emits exactly ceil(S/C) body frames after the start
frame; every frame except the last carries more-body true and a chunk of
exactly C bytes, and the last carries more-body false with a chunk of at most
C bytes. -/
theorem send_response_buffered (C : Nat) (r : StreamResponse)
    (hu : r.is_upgrade = false) (hs : r.streaming = false) (hC : 0 < C) :
    ∃ bodyFrames : List Frame,
      send_response C r = Frame.start r.status_code r.headers :: bodyFrames ∧
      bodyFrames.length = (r.content.length + C - 1) / C ∧
      (∀ f ∈ bodyFrames.dropLast,
        ∃ c : List Nat, f = Frame.body c true ∧ c.length = C) ∧
      (∀ f, bodyFrames.getLast? = some f →
        ∃ c : List Nat, f = Frame.body c false ∧ c.length ≤ C) := by
  refine ⟨(chunk_bytes C r.content).map fun cb => Frame.body cb.1 !cb.2,
    ?_, ?_, ?_, ?_⟩
  · simp [send_response, hu, hs]
  · simp [chunk_bytes_length C hC]
  · by_cases hd : r.content = []
    · simp [hd, chunk_bytes_nil]
    · obtain ⟨chunks, lastC, heq, hc, _, _⟩ :=
        chunk_bytes_structure C hC r.content hd
      rw [heq]
      intro f hf
      simp only [List.map_append, List.map_map, List.map_cons, List.map_nil,
        Function.comp, Bool.not_true, Bool.not_false] at hf
      rw [List.dropLast_concat] at hf
      obtain ⟨c, hcm, rfl⟩ := List.mem_map.mp hf
      exact ⟨c, rfl, hc c hcm⟩
  · by_cases hd : r.content = []
    · simp [hd, chunk_bytes_nil]
    · obtain ⟨chunks, lastC, heq, _, _, hl2⟩ :=
        chunk_bytes_structure C hC r.content hd
      rw [heq]
      intro f hf
      simp only [List.map_append, List.map_map, List.map_cons, List.map_nil,
        Function.comp, Bool.not_true, Bool.not_false] at hf
      rw [List.getLast?_concat] at hf
      obtain rfl := Option.some_injective _ hf.symm
      exact ⟨lastC, rfl, hl2⟩

theorem send_response_buffered_witness :
    ∃ bodyFrames : List Frame,
      send_response 2 (⟨false, 200, [], false, [], [0, 1, 2]⟩ : StreamResponse) =
        Frame.start 200 [] :: bodyFrames ∧
      bodyFrames.length = (3 + 2 - 1) / 2 ∧
      (∀ f ∈ bodyFrames.dropLast,
        ∃ c : List Nat, f = Frame.body c true ∧ c.length = 2) ∧
      (∀ f, bodyFrames.getLast? = some f →
        ∃ c : List Nat, f = Frame.body c false ∧ c.length ≤ 2) :=
  send_response_buffered 2 _ rfl rfl (by decide)

theorem handle_lifespan_protocol_witness :
    handle_lifespan_trace (["x"] ++ "lifespan.startup" :: ["lifespan.shutdown"]) =
      handle_lifespan_trace ["x"] ++ LifespanEvent.recv "lifespan.startup" ::
        LifespanEvent.send "lifespan.startup.complete" ::
          handle_lifespan_trace ["lifespan.shutdown"] :=
  (handle_lifespan_protocol ["x"] ["lifespan.shutdown"] "other"
    (by decide) (by decide)).1

end DjangoWS
